import Mathlib

/-!
Shallow embedding of the OrangeData fiscal-document client
(`src/validators.py` and `src/client.py`) and verification of the frozen
claims about its document-construction and field-validation engine.

Python conventions modelled explicitly:
* every optional argument is an `Option`, with `none` standing for Python
  `None`;
* Python truthiness (`if x:`) is modelled by the `truthy*` helpers below
  (`None`, `0`, `""`, `[]`, `0.0` and `False` are falsy);
* an exception is a `PyErr` value: `validation` is
  `OrangeDataClientValidationError`, while `typeError`/`keyError` model the
  built-in exceptions a faulty path would raise;
* `self.__order_request` / `self.__correction_request` live in a
  `ClientState`; every mutating method returns the state as it is at the
  moment the method returns or raises, so partial writes are observable.
-/

namespace OrangeData

/-- Python truthiness of an optional string: `None` and `""` are falsy. -/
def truthyStr : Option String → Bool
  | none => false
  | some s => s ≠ ""

/-- Python truthiness of an optional integer: `None` and `0` are falsy. -/
def truthyInt : Option Int → Bool
  | none => false
  | some n => n ≠ 0

/-- Python truthiness of an optional number (float/Decimal): `None` and `0` are falsy. -/
def truthyRat : Option Rat → Bool
  | none => false
  | some r => r ≠ 0

/-- Python truthiness of an optional list: `None` and `[]` are falsy. -/
def truthyList : Option (List String) → Bool
  | none => false
  | some l => l ≠ []

/-- Python truthiness of an optional bool (the return type of
`length_is_valid`): `None` and `False` are falsy. -/
def pyTruthy : Option Bool → Bool
  | none => false
  | some b => b

/-! ### `validators.py` -/

/-- A character of the final group `[\d\- ]` of the phone regex. -/
def isTailChar (c : Char) : Bool := c.isDigit || c = '-' || c = ' '

/-- The alternatives generated by the optional head group `((8|\+7)[\- ]?)?`
of the phone regex, as literal character sequences. -/
def phoneHeads : List (List Char) :=
  [[], ['8'], ['8', '-'], ['8', ' '], ['+', '7'], ['+', '7', '-'], ['+', '7', ' ']]

/-- Consume a literal character sequence from the front of `cs`. -/
def consumeLit : List Char → List Char → Option (List Char)
  | [], cs => some cs
  | _ :: _, [] => none
  | p :: ps, c :: cs => if c = p then consumeLit ps cs else none

/-- Consume exactly three digits (`\d{3}`). -/
def consumeDigits3 : List Char → Option (List Char)
  | a :: b :: c :: rest =>
      if a.isDigit && b.isDigit && c.isDigit then some rest else none
  | _ => none

/-- The remainders after an optional single character (`\(?`, `\)?`):
both the consumed and the unconsumed alternative, when available. -/
def optChar (c : Char) (cs : List Char) : List (List Char) :=
  match cs with
  | x :: rest => if x = c then [rest, cs] else [cs]
  | [] => [cs]

/-- The remainders after an optional separator `[\- ]?`. -/
def optSep (cs : List Char) : List (List Char) :=
  match cs with
  | x :: rest => if x = '-' || x = ' ' then [rest, cs] else [cs]
  | [] => [cs]

/-- The remainders after the optional area-code group `(\(?\d{3}\)?[\- ]?)?`:
either the group is absent, or it consumes an optional `(`, three digits,
an optional `)` and an optional separator. -/
def areaTails (cs : List Char) : List (List Char) :=
  cs :: ((optChar '(' cs).flatMap (fun cs1 =>
    match consumeDigits3 cs1 with
    | some cs2 => (optChar ')' cs2).flatMap optSep
    | none => []))

/-- The final group `[\d\- ]{7,10}` anchored at the end of the string. -/
def phoneTail (cs : List Char) : Bool :=
  decide (7 ≤ cs.length) && decide (cs.length ≤ 10) && cs.all isTailChar

/-- Full match of `^((8|\+7)[\- ]?)?(\(?\d{3}\)?[\- ]?)?[\d\- ]{7,10}$`
against a character list. -/
def phoneCore (cs : List Char) : Bool :=
  phoneHeads.any (fun p =>
    match consumeLit p cs with
    | some cs1 => (areaTails cs1).any phoneTail
    | none => false)

/-- `validators.phone_is_valid`: `re.match` of the pattern
`^((8|\+7)[\- ]?)?(\(?\d{3}\)?[\- ]?)?[\d\- ]{7,10}$`.  Python's `$` also
matches just before a single trailing newline, which the second disjunct
reproduces. -/
def phone_is_valid (phone : String) : Bool :=
  phoneCore phone.data ||
    (match phone.data.getLast? with
     | some c => c = '\n' && phoneCore phone.data.dropLast
     | none => false)

/-- `validators.length_is_valid(obj, min_, max_)`.  The source initialises
`res = None`, overwrites it with `length >= min_` when `min_` is truthy
(returning early on failure) and with `length <= max_` when `max_` is
truthy, and returns `res`; a bound of `0` is falsy and therefore skipped,
and with no truthy bound the function returns `None`. -/
def length_is_valid (obj : String) (min_ max_ : Option Int) : Option Bool :=
  let length : Int := obj.length
  if truthyInt min_ then
    if min_.getD 0 ≤ length then
      if truthyInt max_ then some (decide (length ≤ max_.getD 0)) else some true
    else
      some false
  else
    if truthyInt max_ then some (decide (length ≤ max_.getD 0)) else none

/-- Python's exact-arithmetic `2 ** a` for an integer `a`: an integer
power for `a ≥ 0` and the exact dyadic fraction for `a < 0` (the float
`2 ** a` is exact for the small magnitudes involved).  `pyPow2_eq_zpow`
below shows this is the rational power `(2 : Rat) ^ a`. -/
def pyPow2 (a : Int) : Rat :=
  if 0 ≤ a then ((2 ^ a.toNat : Nat) : Rat) else mkRat 1 (2 ^ (-a).toNat)

/-! ### Errors and the data model (`src/client.py`) -/

/-- An exception escaping a builder method.  `validation` is
`OrangeDataClientValidationError`; `typeError` and `keyError` model the
built-in `TypeError`/`KeyError` raised on faulty state access. -/
inductive PyErr where
  | validation : String → PyErr
  | typeError : String → PyErr
  | keyError : String → PyErr
deriving DecidableEq

/-- The nested `supplierInfo` dict of a position (lines 284-304). -/
structure SupplierInfo where
  phoneNumbers : Option (List String) := none
  name : Option String := none
deriving DecidableEq

/-- The nested `agentInfo` dict of a position (lines 314-362). -/
structure AgentInfo where
  paymentTransferOperatorPhoneNumbers : Option (List String) := none
  paymentAgentOperation : Option String := none
  paymentAgentPhoneNumbers : Option (List String) := none
  paymentOperatorPhoneNumbers : Option (List String) := none
  paymentOperatorName : Option String := none
  paymentOperatorAddress : Option String := none
  paymentOperatorINN : Option String := none
deriving DecidableEq

/-- The nested `fractionalQuantity` dict (lines 424-435). -/
structure FractionalQuantity where
  numerator : Option Int := none
  denominator : Option Int := none
deriving DecidableEq

/-- The nested `industryAttribute` dict (lines 437-458). -/
structure IndustryAttribute where
  foivId : Option String := none
  causeDocumentDate : Option String := none
  causeDocumentNumber : Option String := none
  value : Option String := none
deriving DecidableEq

/-- The nested `barcodes` dict (lines 459-524). -/
structure Barcodes where
  ean8 : Option String := none
  ean13 : Option String := none
  itf14 : Option String := none
  gs1 : Option String := none
  mi : Option String := none
  egais20 : Option String := none
  egais30 : Option String := none
  f1 : Option String := none
  f2 : Option String := none
  f3 : Option String := none
  f4 : Option String := none
  f5 : Option String := none
  f6 : Option String := none
deriving DecidableEq

/-- One line item (the local `position` dict of `add_position_to_order` /
`add_position_to_correction`).  The `itemCode` key can hold either the
`item_code` string (line 415) or the integer `planned_status`
(line 420 stores the number under the same `itemCode` key); there is no
`plannedStatus` field because the source never writes such a key.
`unitTaxSum` holds whatever the `tax_sum` argument was (line 396 stores
`tax_sum`, which may be `None`). -/
structure Position where
  quantity : Rat
  price : Rat
  tax : Int
  text : String
  paymentMethodType : Option Int := none
  paymentSubjectType : Option Int := none
  supplierINN : Option String := none
  supplierInfo : Option SupplierInfo := none
  agentType : Option Rat := none
  agentInfo : Option AgentInfo := none
  additionalAttribute : Option String := none
  manufacturerCountryCode : Option String := none
  customsDeclarationNumber : Option String := none
  excise : Option Rat := none
  taxSum : Option Rat := none
  unitTaxSum : Option (Option Rat) := none
  unitOfMeasurement : Option String := none
  quantityMeasurementUnit : Option Int := none
  itemCode : Option (Sum String Int) := none
  fractionalQuantity : Option FractionalQuantity := none
  industryAttribute : Option IndustryAttribute := none
  barcodes : Option Barcodes := none
deriving DecidableEq

/-- One entry of `content['checkClose']['payments']` (lines 542-546). -/
structure Payment where
  type : Int
  amount : Rat
deriving DecidableEq

/-- The `content['checkClose']` dict. -/
structure CheckClose where
  payments : List Payment := []
  taxationSystem : Option Int := none
deriving DecidableEq

/-- The `content['additionalUserAttribute']` dict (lines 665-675). -/
structure AdditionalUserAttribute where
  name : Option String := none
  value : Option String := none
deriving DecidableEq

/-- The `content` dict of the order request.  `positions` and `checkClose`
are `Option` because `create_order` creates those keys only after the
ffd-version and order-type checks have passed. -/
structure Content where
  ffdVersion : Option Int := none
  type : Option Int := none
  positions : Option (List Position) := none
  checkClose : Option CheckClose := none
  customerContact : Option String := none
  agentType : Option Rat := none
  paymentTransferOperatorPhoneNumbers : Option (List String) := none
  paymentAgentOperation : Option String := none
  paymentAgentPhoneNumbers : Option (List String) := none
  paymentOperatorPhoneNumbers : Option (List String) := none
  paymentOperatorName : Option String := none
  paymentOperatorAddress : Option String := none
  paymentOperatorINN : Option String := none
  supplierPhoneNumbers : Option (List String) := none
  automatNumber : Option String := none
  settlementAddress : Option String := none
  settlementPlace : Option String := none
  additionalUserAttribute : Option AdditionalUserAttribute := none
deriving DecidableEq

/-- `self.__order_request` (lines 75-110). -/
structure OrderRequest where
  id : String
  inn : String
  group : Option String := none
  key : Option String := none
  ignoreItemCodeCheck : Int := 0
  content : Content := {}
deriving DecidableEq

/-- The `content` dict of `self.__correction_request` as written by
`create_correction12` (lines 921-951); only the parts
`add_position_to_correction` interacts with are spelt out, the
remaining scalar fields are irrelevant to the claims. -/
structure CorrectionContent where
  positions : Option (List Position) := none
  checkClose : Option CheckClose := none
  correctionType : Option Int := none
  type : Option Int := none
  customerContact : Option String := none
  ffdVersion : Option Int := none
deriving DecidableEq

/-- `self.__correction_request` (lines 912-951). -/
structure CorrectionRequest where
  id : String
  inn : String
  group : String := "Main_2"
  key : Option String := none
  ignoreItemCodeCheck : Int := 0
  content : CorrectionContent := {}
deriving DecidableEq

/-- The mutable state of an `OrangeDataClient` instance: the fixed
taxpayer id `self.__inn` plus the two in-progress documents, which start
out as the class-level `None`. -/
structure ClientState where
  inn : String
  order_request : Option OrderRequest := none
  correction_request : Option CorrectionRequest := none
deriving DecidableEq

/-! ### `create_order`, `add_payment_to_order`, `add_user_attribute`,
`add_agent_to_order` (document-level operations)

Each operation returns the client state at the moment it returns or
raises.  The source mutates `self.__order_request` in place while it
validates, so a raised error can leave a partially written document; the
embedding reproduces this by returning the partially updated state
together with the error. -/

/-- `create_order` (lines 75-110).  The method first replaces
`self.__order_request` by a fresh dict and fills `id`, `inn`, `group`,
`key`, `ignoreItemCodeCheck` and an empty `content`, then checks
`ffd_version`, then `type_`, then creates `positions`/`checkClose`, then
checks `taxation_system`, then `customer_contact`; each failed check
raises immediately, leaving the fields written so far in place. -/
def create_order (st : ClientState) (id_ : String) (type_ : Int) (customer_contact : String)
    (taxation_system : Int) (group : Option String) (key : Option String)
    (ffd_version : Int) (ignore_item_code_check : Int) : ClientState × Option PyErr :=
  let req : OrderRequest := { id := id_, inn := st.inn }
  let req := if truthyStr group then { req with group := group } else req
  let req := if truthyStr key then { req with key := key } else req
  let req := { req with ignoreItemCodeCheck := ignore_item_code_check }
  if ffd_version = 2 ∨ ffd_version = 4 then
    let req := { req with content := { req.content with ffdVersion := some ffd_version } }
    if type_ = 1 ∨ type_ = 2 ∨ type_ = 3 ∨ type_ = 4 then
      let req := { req with content := { req.content with type := some type_ } }
      let req := { req with content := { req.content with positions := some [], checkClose := some {} } }
      if taxation_system = 0 ∨ taxation_system = 1 ∨ taxation_system = 2 ∨
          taxation_system = 3 ∨ taxation_system = 4 ∨ taxation_system = 5 then
        let cc := { req.content.checkClose.getD {} with taxationSystem := some taxation_system : CheckClose }
        let req := { req with content := { req.content with checkClose := some cc } }
        -- line 107: `'@' in customer_contact or re.match(<phone pattern>, customer_contact)`;
        -- the inlined pattern is identical to the one in validators.phone_is_valid
        if customer_contact.contains '@' ∨ phone_is_valid customer_contact then
          let req := { req with content := { req.content with customerContact := some customer_contact } }
          ({ st with order_request := some req }, none)
        else
          ({ st with order_request := some req }, some (.validation "Incorrect customer Contact"))
      else ({ st with order_request := some req }, some (.validation "Incorrect taxationSystem"))
    else ({ st with order_request := some req }, some (.validation "Incorrect order Type"))
  else ({ st with order_request := some req }, some (.validation "Incorrect ffd version"))

/-- `add_payment_to_order` (lines 528-548): validates the payment type and
amount first and only then touches `self.__order_request`; the
`isinstance(amount, Decimal)` conjunct holds by construction of the
embedding (`amount : Rat`). -/
def add_payment_to_order (st : ClientState) (type_ : Int) (amount : Rat) :
    ClientState × Option PyErr :=
  if type_ = 1 ∨ type_ = 2 ∨ type_ = 14 ∨ type_ = 15 ∨ type_ = 16 then
    let payment : Payment := { type := type_, amount := amount }
    match st.order_request with
    | none => (st, some (.typeError "NoneType is not subscriptable"))
    | some req =>
      match req.content.checkClose with
      | none => (st, some (.keyError "checkClose"))
      | some cc =>
        ({ st with order_request := some { req with content := { req.content with
            checkClose := some { cc with payments := cc.payments ++ [payment] } } } }, none)
  else (st, some (.validation "Invalid Payment Type or Amount"))

/-- `add_user_attribute` (lines 656-675): resets
`content['additionalUserAttribute']` to an empty dict, then checks and
stores `name`, then checks `value + name` and stores `value`; a failed
check raises with the writes made so far still in place. -/
def add_user_attribute (st : ClientState) (name value : String) : ClientState × Option PyErr :=
  match st.order_request with
  | none => (st, some (.typeError "NoneType is not subscriptable"))
  | some req =>
    let req := { req with content := { req.content with additionalUserAttribute := some {} } }
    if pyTruthy (length_is_valid name (some 1) (some 64)) then
      let attr1 : AdditionalUserAttribute := { name := some name }
      let req := { req with content := { req.content with additionalUserAttribute := some attr1 } }
      if pyTruthy (length_is_valid (value ++ name) (some 1) (some 234)) then
        let attr2 : AdditionalUserAttribute := { name := some name, value := some value }
        let req := { req with content := { req.content with additionalUserAttribute := some attr2 } }
        ({ st with order_request := some req }, none)
      else ({ st with order_request := some req }, some (.validation "String name + value is too long"))
    else ({ st with order_request := some req }, some (.validation "String name is too long"))

/-- Sequencing of in-place mutations: run the next block only when no
exception has been raised so far. -/
def andThen (r : ClientState × Option PyErr) (f : ClientState → ClientState × Option PyErr) :
    ClientState × Option PyErr :=
  match r with
  | (st, none) => f st
  | r => r

/-- An assignment `self.__order_request['content'][...] = ...`; raises
`TypeError` when no order is in progress. -/
def setContent (st : ClientState) (f : Content → Content) : ClientState × Option PyErr :=
  match st.order_request with
  | none => (st, some (.typeError "NoneType is not subscriptable"))
  | some req => ({ st with order_request := some { req with content := f req.content } }, none)

/-- The `agent_type` block of `add_agent_to_order` (lines 587-592):
skipped entirely when `agent_type` is falsy (`None` or `0`); otherwise
the value is replaced by `2 ** agent_type` and stored when it lies
strictly between 0 and 128. -/
def agentTypeStep (agent_type : Option Int) (st : ClientState) : ClientState × Option PyErr :=
  if truthyInt agent_type then
    let a : Rat := pyPow2 (agent_type.getD 0)
    if 0 < a ∧ a < 128 then setContent st (fun c => { c with agentType := some a })
    else (st, some (.validation "Invalid agent_type"))
  else (st, none)

/-- A phone-list block of `add_agent_to_order` (e.g. lines 594-599): each
phone is validated in order, raising at the first invalid one; afterwards
the whole list is written to `content`. -/
def phoneListToContent (phones : Option (List String)) (msg : String)
    (f : Content → List String → Content) (st : ClientState) : ClientState × Option PyErr :=
  if truthyList phones then
    if (phones.getD []).all phone_is_valid then setContent st (fun c => f c (phones.getD []))
    else (st, some (.validation msg))
  else (st, none)

/-- A bounded-length text block of `add_agent_to_order`
(e.g. lines 601-605). -/
def textToContent (v : Option String) (lo hi : Int) (msg : String)
    (f : Content → String → Content) (st : ClientState) : ClientState × Option PyErr :=
  if truthyStr v then
    if pyTruthy (length_is_valid (v.getD "") (some lo) (some hi)) then
      setContent st (fun c => f c (v.getD ""))
    else (st, some (.validation msg))
  else (st, none)

/-- `length_is_valid` applied to a possibly absent argument:
`len(None)` raises `TypeError`. -/
def pyLenChecksValid (v : Option String) (lo hi : Int) : Except PyErr Bool :=
  match v with
  | none => .error (.typeError "object of type NoneType has no len")
  | some s => .ok (pyTruthy (length_is_valid s (some lo) (some hi)))

/-- The `automat_number`/`settlement_address`/`settlement_place` block of
`add_agent_to_order` (lines 646-654): entered when any of the three is
truthy; the three `length_is_valid` calls run left to right with Python
short-circuiting, and all three values are stored on success. -/
def automatStep (automat_number settlement_address settlement_place : Option String)
    (st : ClientState) : ClientState × Option PyErr :=
  if truthyStr automat_number || truthyStr settlement_address || truthyStr settlement_place then
    match pyLenChecksValid automat_number 1 20 with
    | .error e => (st, some e)
    | .ok false => (st, some (.validation "Invalid automat_number or settlement_address or settlement_place"))
    | .ok true =>
      match pyLenChecksValid settlement_address 1 243 with
      | .error e => (st, some e)
      | .ok false => (st, some (.validation "Invalid automat_number or settlement_address or settlement_place"))
      | .ok true =>
        match pyLenChecksValid settlement_place 1 243 with
        | .error e => (st, some e)
        | .ok false => (st, some (.validation "Invalid automat_number or settlement_address or settlement_place"))
        | .ok true =>
          setContent st (fun c =>
            { c with
              automatNumber := automat_number
              settlementAddress := settlement_address
              settlementPlace := settlement_place })
  else (st, none)

/-- `add_agent_to_order` (lines 550-655): a sequence of independent
blocks, each mutating `content` in place; a failed check raises with the
earlier blocks' writes still in place. -/
def add_agent_to_order (st : ClientState) (agent_type : Option Int)
    (pay_TOP : Option (List String)) (pay_AO : Option String)
    (pay_APN pay_OPN : Option (List String)) (pay_ON pay_OA pay_Op_INN : Option String)
    (sup_PN : Option (List String))
    (automat_number settlement_address settlement_place : Option String) :
    ClientState × Option PyErr :=
  andThen (agentTypeStep agent_type st) (fun st =>
  andThen (phoneListToContent pay_TOP "Invalid pay_TOP"
      (fun c l => { c with paymentTransferOperatorPhoneNumbers := some l }) st) (fun st =>
  andThen (textToContent pay_AO 1 24 "Invalid pay_AO"
      (fun c s => { c with paymentAgentOperation := some s }) st) (fun st =>
  andThen (phoneListToContent pay_APN "Invalid pay_APN"
      (fun c l => { c with paymentAgentPhoneNumbers := some l }) st) (fun st =>
  andThen (phoneListToContent pay_OPN "Invalid pay_OPN"
      (fun c l => { c with paymentOperatorPhoneNumbers := some l }) st) (fun st =>
  andThen (textToContent pay_ON 1 64 "Invalid pay_ON"
      (fun c s => { c with paymentOperatorName := some s }) st) (fun st =>
  andThen (textToContent pay_OA 1 243 "Invalid pay_OA"
      (fun c s => { c with paymentOperatorAddress := some s }) st) (fun st =>
  andThen (textToContent pay_Op_INN 10 12 "Invalid pay_Op_INN"
      (fun c s => { c with paymentOperatorINN := some s }) st) (fun st =>
  andThen (phoneListToContent sup_PN "Invalid sup_PN"
      (fun c l => { c with supplierPhoneNumbers := some l }) st) (fun st =>
  automatStep automat_number settlement_address settlement_place st)))))))))

/-! ### Building a line item (`add_position_to_order`,
`add_position_to_correction`)

Both methods build a local `position` dict, validating field group by
field group, and only touch `self` when reading
`content['ffdVersion']` (order variant only) and when appending the
finished position; a raised error therefore leaves the client state
unchanged.  The bodies of the two methods are textually identical except
that the order variant gates the `unitOfMeasurement` field on FFD 1.05
and the REVISION_2 fields on FFD 1.2, while the correction variant has no
`unit_of_measurement` parameter and processes the REVISION_2 fields
unconditionally; the shared blocks are embedded once below. -/

/-- Lines 263-271 / 1119-1127: the base field group.  The
`isinstance(quantity, (float, int))` and `isinstance(price, Decimal)`
conjuncts hold by construction of the embedding. -/
def posBase (quantity price : Rat) (tax : Int) (text : String) : Except PyErr Position :=
  if (tax = 1 ∨ tax = 2 ∨ tax = 3 ∨ tax = 4 ∨ tax = 5 ∨ tax = 6) ∧
      pyTruthy (length_is_valid text none (some 128)) then
    .ok { quantity := quantity, price := price, tax := tax, text := text }
  else .error (.validation "Invalid Position Quantity, Price, Tax or Text")

/-- Lines 273-278 / 1129-1134: the payment method/subject pair. -/
def posPayTypes (payment_method_type payment_subject_type : Int) (pos : Position) :
    Except PyErr Position :=
  if (payment_method_type = 1 ∨ payment_method_type = 2 ∨ payment_method_type = 3 ∨
      payment_method_type = 4 ∨ payment_method_type = 5 ∨ payment_method_type = 6 ∨
      payment_method_type = 7) ∧
     (payment_subject_type = 1 ∨ payment_subject_type = 2 ∨ payment_subject_type = 3 ∨
      payment_subject_type = 4 ∨ payment_subject_type = 5 ∨ payment_subject_type = 6 ∨
      payment_subject_type = 7 ∨ payment_subject_type = 8 ∨ payment_subject_type = 9 ∨
      payment_subject_type = 10 ∨ payment_subject_type = 11 ∨ payment_subject_type = 12 ∨
      payment_subject_type = 13) then
    .ok { pos with paymentMethodType := some payment_method_type,
                   paymentSubjectType := some payment_subject_type }
  else .error (.validation "Invalid Position payment_method_type or payment_subject_type")

/-- Lines 280-282 / 1136-1138: a truthy `supplier_inn` is stored only when
its length is in range 10-13; there is no `else` branch, so an
out-of-range value is silently dropped. -/
def posSupplierINN (supplier_inn : Option String) (pos : Position) : Position :=
  if truthyStr supplier_inn then
    if pyTruthy (length_is_valid (supplier_inn.getD "") (some 10) (some 13)) then
      { pos with supplierINN := supplier_inn }
    else pos
  else pos

/-- Lines 294-304 / 1150-1160: the supplier-name ceiling
`239 - (len(''.join(phoneNumbers)) + 4 * len(phoneNumbers))` computed
from the phones stored on the position, with `phoneNumbers` defaulting to
`[]`. -/
def posSupplierName (supplier_name : Option String) (pos : Position) : Except PyErr Position :=
  if truthyStr supplier_name then
    let phones := (pos.supplierInfo.getD {}).phoneNumbers.getD []
    let max_length : Int := 239 - (((phones.map String.length).sum : Int) + 4 * (phones.length : Int))
    if pyTruthy (length_is_valid (supplier_name.getD "") (some 1) (some max_length)) then
      let si := { pos.supplierInfo.getD {} with name := supplier_name : SupplierInfo }
      .ok { pos with supplierInfo := some si }
    else .error (.validation "Invalid supplier name")
  else .ok pos

/-- Lines 284-304 / 1140-1160: the `supplierInfo` block.  The nested dict
is created when either trigger argument is truthy; each phone is
validated in order (raising at the first invalid one) and the full list
stored; then the name is checked against the ceiling. -/
def posSupplierBlock (supplier_phone_numbers : Option (List String))
    (supplier_name : Option String) (pos : Position) : Except PyErr Position :=
  let pos :=
    if truthyList supplier_phone_numbers || truthyStr supplier_name then
      { pos with supplierInfo := some {} }
    else pos
  if truthyList supplier_phone_numbers then
    if (supplier_phone_numbers.getD []).all phone_is_valid then
      let si := { pos.supplierInfo.getD {} with phoneNumbers := supplier_phone_numbers : SupplierInfo }
      posSupplierName supplier_name { pos with supplierInfo := some si }
    else .error (.validation "Invalid supplier_phone_numbers")
  else posSupplierName supplier_name pos

/-- Lines 306-312 / 1162-1168: the per-position `agent_type` block,
identical in shape to the document-level one: skipped when falsy,
otherwise `2 ** agent_type` must lie strictly between 0 and 128. -/
def posAgentType (agent_type : Option Int) (pos : Position) : Except PyErr Position :=
  if truthyInt agent_type then
    let a : Rat := pyPow2 (agent_type.getD 0)
    if 0 < a ∧ a < 128 then .ok { pos with agentType := some a }
    else .error (.validation "Invalid agent_type")
  else .ok pos

/-- A phone-list field of the per-position `agentInfo` block
(e.g. lines 332-337): the store happens inside the `for` loop after the
first phone passes, so a missing `agentInfo` key raises `KeyError` only
once the first phone is valid. -/
def posAgentPhones (phones : Option (List String)) (msg : String)
    (f : AgentInfo → List String → AgentInfo) (pos : Position) : Except PyErr Position :=
  if truthyList phones then
    match phones.getD [] with
    | [] => .ok pos
    | p0 :: rest =>
      if phone_is_valid p0 then
        match pos.agentInfo with
        | none => .error (.keyError "agentInfo")
        | some ai =>
          if rest.all phone_is_valid then .ok { pos with agentInfo := some (f ai (phones.getD [])) }
          else .error (.validation msg)
      else .error (.validation msg)
  else .ok pos

/-- A bounded-length text field of the per-position `agentInfo` block
(e.g. lines 326-330). -/
def posAgentText (v : Option String) (lo hi : Int) (msg : String)
    (f : AgentInfo → String → AgentInfo) (pos : Position) : Except PyErr Position :=
  if truthyStr v then
    if pyTruthy (length_is_valid (v.getD "") (some lo) (some hi)) then
      match pos.agentInfo with
      | none => .error (.keyError "agentInfo")
      | some ai => .ok { pos with agentInfo := some (f ai (v.getD "")) }
    else .error (.validation msg)
  else .ok pos

/-- Lines 314-362 / 1170-1218: the per-position `agentInfo` block.  The
creation condition on lines 314-316 tests
`payment_transfer_operator_phone_numbers` twice and omits
`payment_agent_phone_numbers` and `payment_operator_phone_numbers`, which
the embedding reproduces verbatim. -/
def posAgentBlock (payment_transfer_operator_phone_numbers : Option (List String))
    (payment_agent_operation : Option String)
    (payment_agent_phone_numbers payment_operator_phone_numbers : Option (List String))
    (payment_operator_name payment_operator_address payment_operator_inn : Option String)
    (pos : Position) : Except PyErr Position := do
  let pos :=
    if truthyList payment_transfer_operator_phone_numbers || truthyStr payment_agent_operation ||
        truthyList payment_transfer_operator_phone_numbers || truthyStr payment_operator_name ||
        truthyStr payment_operator_address || truthyStr payment_operator_inn then
      { pos with agentInfo := some {} }
    else pos
  let pos ← posAgentPhones payment_transfer_operator_phone_numbers
      "Invalid payment_transfer_operator_phone_numbers"
      (fun ai l => { ai with paymentTransferOperatorPhoneNumbers := some l }) pos
  let pos ← posAgentText payment_agent_operation 1 24 "Invalid payment_agent_operation"
      (fun ai s => { ai with paymentAgentOperation := some s }) pos
  let pos ← posAgentPhones payment_agent_phone_numbers "Invalid payment_agent_phone_numbers"
      (fun ai l => { ai with paymentAgentPhoneNumbers := some l }) pos
  let pos ← posAgentPhones payment_operator_phone_numbers "Invalid payment_operator_phone_numbers"
      (fun ai l => { ai with paymentOperatorPhoneNumbers := some l }) pos
  let pos ← posAgentText payment_operator_name 1 64 "Invalid payment_operator_name"
      (fun ai s => { ai with paymentOperatorName := some s }) pos
  let pos ← posAgentText payment_operator_address 1 243 "Invalid payment_operator_address"
      (fun ai s => { ai with paymentOperatorAddress := some s }) pos
  let pos ← posAgentText payment_operator_inn 10 12 "Invalid payment_operator_inn"
      (fun ai s => { ai with paymentOperatorINN := some s }) pos
  pure pos

/-- A bounded-length text field stored directly on the position
(e.g. lines 364-368). -/
def posOptText (v : Option String) (lo hi : Int) (msg : String)
    (f : Position → String → Position) (pos : Position) : Except PyErr Position :=
  if truthyStr v then
    if pyTruthy (length_is_valid (v.getD "") (some lo) (some hi)) then .ok (f pos (v.getD ""))
    else .error (.validation msg)
  else .ok pos

/-- Lines 364-398 / 1220-1254: `additional_attribute`,
`manufacturer_country_code` (whose error message on line 374 repeats
`'Invalid additional_attribute'`), `customs_declaration_number`, and the
numeric `excise`/`tax_sum`/`unit_tax_sum` fields; line 396 stores
`tax_sum` under `unitTaxSum` instead of `unit_tax_sum`.  The
`isinstance` checks hold by construction. -/
def posSimpleFields
    (additional_attribute manufacturer_country_code customs_declaration_number : Option String)
    (excise tax_sum unit_tax_sum : Option Rat) (pos : Position) : Except PyErr Position := do
  let pos ← posOptText additional_attribute 1 64 "Invalid additional_attribute"
      (fun p s => { p with additionalAttribute := some s }) pos
  let pos ← posOptText manufacturer_country_code 1 3 "Invalid additional_attribute"
      (fun p s => { p with manufacturerCountryCode := some s }) pos
  let pos ← posOptText customs_declaration_number 1 32 "Invalid customs_declaration_number"
      (fun p s => { p with customsDeclarationNumber := some s }) pos
  let pos := if truthyRat excise then { pos with excise := excise } else pos
  let pos := if truthyRat tax_sum then { pos with taxSum := tax_sum } else pos
  let pos := if truthyRat unit_tax_sum then { pos with unitTaxSum := some tax_sum } else pos
  pure pos

/-- Lines 400-405: the FFD 1.05-only `unit_of_measurement` field of
`add_position_to_order`. -/
def posUnitOfMeasurement (unit_of_measurement : Option String) (pos : Position) :
    Except PyErr Position :=
  posOptText unit_of_measurement 1 16 "Invalid unit_of_measurement"
    (fun p s => { p with unitOfMeasurement := some s }) pos

/-- The numeric value of a digit string. -/
def digitsToNat (ds : List Char) : Nat :=
  ds.foldl (fun n c => 10 * n + (c.toNat - '0'.toNat)) 0

/-- Models the success of `time.strptime(s, "%d.%m.%Y")` (lines 443-448):
one or two digits with value 1-31, a dot, one or two digits with value
1-12, a dot, one to four digits, consuming the whole string; `strptime`
checks ranges but not calendar validity. -/
def validCauseDate (s : String) : Bool :=
  let p1 := s.data.span Char.isDigit
  match p1.2 with
  | '.' :: r2 =>
    let p2 := r2.span Char.isDigit
    (match p2.2 with
     | '.' :: r4 =>
       let p3 := r4.span Char.isDigit
       decide (1 ≤ p1.1.length) && decide (p1.1.length ≤ 2) &&
       decide (1 ≤ p2.1.length) && decide (p2.1.length ≤ 2) &&
       decide (1 ≤ p3.1.length) && decide (p3.1.length ≤ 4) &&
       p3.2.isEmpty &&
       decide (1 ≤ digitsToNat p1.1) && decide (digitsToNat p1.1 ≤ 31) &&
       decide (1 ≤ digitsToNat p2.1) && decide (digitsToNat p2.1 ≤ 12)
     | _ => false)
  | _ => false

/-- `len` of a possibly absent string: `len(None)` raises `TypeError`. -/
def pyLenStr : Option String → Except PyErr Nat
  | none => .error (.typeError "object of type NoneType has no len")
  | some s => .ok s.length

/-- A fixed-length barcode field (e.g. lines 460-464): when `v` is truthy
the source tests `len(measured) == n`, where `measured` is whatever
barcode argument the source actually measures (itself for
`ean8`/`mi`/`egais20`, but `barcodes_ean8` for `ean13`/`itf14` and
`barcodes_egais20` for `egais30`). -/
def posBarcode (v measured : Option String) (n : Nat) (msg : String)
    (f : Barcodes → String → Barcodes) (pos : Position) : Except PyErr Position :=
  if truthyStr v then do
    let len ← pyLenStr measured
    if len = n then
      .ok { pos with barcodes := some (f (pos.barcodes.getD {}) (v.getD "")) }
    else .error (.validation msg)
  else .ok pos

/-- A bounded-length barcode field (e.g. lines 475-479). -/
def posBarcodeRange (v : Option String) (lo hi : Int) (msg : String)
    (f : Barcodes → String → Barcodes) (pos : Position) : Except PyErr Position :=
  if truthyStr v then
    if pyTruthy (length_is_valid (v.getD "") (some lo) (some hi)) then
      .ok { pos with barcodes := some (f (pos.barcodes.getD {}) (v.getD "")) }
    else .error (.validation msg)
  else .ok pos

/-- A bounded-length field of the `industryAttribute` dict
(e.g. lines 438-442). -/
def posIndText (v : Option String) (lo hi : Int) (msg : String)
    (f : IndustryAttribute → String → IndustryAttribute) (pos : Position) :
    Except PyErr Position :=
  if truthyStr v then
    if pyTruthy (length_is_valid (v.getD "") (some lo) (some hi)) then
      .ok { pos with industryAttribute := some (f (pos.industryAttribute.getD {}) (v.getD "")) }
    else .error (.validation msg)
  else .ok pos

/-- Lines 408-524 / 1256-1371: the REVISION_2 field block, shared verbatim
by the two position builders.  Notable source behaviour reproduced here:
a valid `planned_status` is stored under the `itemCode` key (line 420 /
1268), overwriting a previously stored `item_code`; `fractionalQuantity`
is replaced by a fresh one-entry dict by the numerator and extended by the
denominator (raising `KeyError` if the numerator is absent);
`industryAttribute` and `barcodes` are unconditionally reset to empty
dicts; and the `ean13`/`itf14`/`egais30` checks measure the length of a
different barcode argument than the one being stored. -/
def posRev2 (quantity_measurement_unit : Option Int) (item_code : Option String)
    (planned_status fractional_quantity_numerator fractional_quantity_denominator : Option Int)
    (industry_attribute_foivId industry_attribute_cause_document_date
     industry_attribute_cause_document_number industry_attribute_value : Option String)
    (barcodes_ean8 barcodes_ean13 barcodes_itf14 barcodes_gs1 barcodes_mi barcodes_egais20
     barcodes_egais30 barcodes_f1 barcodes_f2 barcodes_f3 barcodes_f4 barcodes_f5
     barcodes_f6 : Option String)
    (pos : Position) : Except PyErr Position := do
  let pos ←
    if truthyInt quantity_measurement_unit then
      if 0 ≤ quantity_measurement_unit.getD 0 ∧ quantity_measurement_unit.getD 0 < 256 then
        pure { pos with quantityMeasurementUnit := quantity_measurement_unit }
      else Except.error (.validation "Invalid quantity_measurement_unit")
    else pure pos
  let pos ←
    if truthyStr item_code then
      if pyTruthy (length_is_valid (item_code.getD "") (some 1) (some 223)) then
        pure { pos with itemCode := some (Sum.inl (item_code.getD "")) }
      else Except.error (.validation "Invalid item_code")
    else pure pos
  let pos ←
    if truthyInt planned_status then
      if 0 < planned_status.getD 0 ∧ planned_status.getD 0 < 256 then
        pure { pos with itemCode := some (Sum.inr (planned_status.getD 0)) }
      else Except.error (.validation "Invalid planned_status")
    else pure pos
  let pos ←
    if truthyInt fractional_quantity_numerator then
      pure { pos with fractionalQuantity := some { numerator := fractional_quantity_numerator } }
    else pure pos
  let pos ←
    if truthyInt fractional_quantity_denominator then
      match pos.fractionalQuantity with
      | none => Except.error (.keyError "fractionalQuantity")
      | some fq =>
        pure { pos with fractionalQuantity := some { fq with denominator := fractional_quantity_denominator } }
    else pure pos
  let pos := { pos with industryAttribute := some {} }
  let pos ← posIndText industry_attribute_foivId 1 3 "Invalid industry_attribute_foivId"
      (fun ia s => { ia with foivId := some s }) pos
  let pos ←
    if truthyStr industry_attribute_cause_document_date then
      if validCauseDate (industry_attribute_cause_document_date.getD "") then
        let ia := { pos.industryAttribute.getD {} with
                    causeDocumentDate := industry_attribute_cause_document_date : IndustryAttribute }
        pure { pos with industryAttribute := some ia }
      else Except.error (.validation "Invalid industry_attribute_cause_document_date")
    else pure pos
  let pos ← posIndText industry_attribute_cause_document_number 1 32
      "Invalid industry_attribute_cause_document_number"
      (fun ia s => { ia with causeDocumentNumber := some s }) pos
  let pos ← posIndText industry_attribute_value 1 32 "Invalid industry_attribute_value"
      (fun ia s => { ia with value := some s }) pos
  let pos := { pos with barcodes := some {} }
  let pos ← posBarcode barcodes_ean8 barcodes_ean8 8 "Invalid barcodes_ean8"
      (fun b s => { b with ean8 := some s }) pos
  let pos ← posBarcode barcodes_ean13 barcodes_ean8 13 "Invalid barcodes_ean13"
      (fun b s => { b with ean13 := some s }) pos
  let pos ← posBarcode barcodes_itf14 barcodes_ean8 14 "Invalid barcodes_itf14"
      (fun b s => { b with itf14 := some s }) pos
  let pos ← posBarcodeRange barcodes_gs1 1 38 "Invalid barcodes_gs1"
      (fun b s => { b with gs1 := some s }) pos
  let pos ← posBarcode barcodes_mi barcodes_mi 20 "Invalid barcodes_mi"
      (fun b s => { b with mi := some s }) pos
  let pos ← posBarcode barcodes_egais20 barcodes_egais20 23 "Invalid barcodes_egais20"
      (fun b s => { b with egais20 := some s }) pos
  let pos ← posBarcode barcodes_egais30 barcodes_egais20 14 "Invalid barcodes_egais30"
      (fun b s => { b with egais30 := some s }) pos
  let pos ← posBarcodeRange barcodes_f1 1 32 "Invalid barcodes_f1"
      (fun b s => { b with f1 := some s }) pos
  let pos ← posBarcodeRange barcodes_f2 1 32 "Invalid barcodes_f2"
      (fun b s => { b with f2 := some s }) pos
  let pos ← posBarcodeRange barcodes_f3 1 32 "Invalid barcodes_f3"
      (fun b s => { b with f3 := some s }) pos
  let pos ← posBarcodeRange barcodes_f4 1 32 "Invalid barcodes_f4"
      (fun b s => { b with f4 := some s }) pos
  let pos ← posBarcodeRange barcodes_f5 1 32 "Invalid barcodes_f5"
      (fun b s => { b with f5 := some s }) pos
  let pos ← posBarcodeRange barcodes_f6 1 32 "Invalid barcodes_f6"
      (fun b s => { b with f6 := some s }) pos
  pure pos

/-- The read of `self.__order_request['content']['ffdVersion']` on
lines 400/407: `TypeError` when no order is in progress, `KeyError` when
the content has no `ffdVersion` key. -/
def ffdLookup (st : ClientState) : Except PyErr Int :=
  match st.order_request with
  | none => .error (.typeError "NoneType is not subscriptable")
  | some req =>
    match req.content.ffdVersion with
    | none => .error (.keyError "ffdVersion")
    | some v => .ok v

/-- The local `position` dict built by `add_position_to_order`
(lines 263-524): the shared blocks followed by the FFD-gated
`unit_of_measurement` (FFD 1.05) and REVISION_2 (FFD 1.2) blocks.
`ffdE` is the deferred read of `content['ffdVersion']`, forced exactly
where lines 400/407 perform it. -/
def buildOrderPosition (ffdE : Except PyErr Int) (quantity price : Rat) (tax : Int)
    (text : String) (payment_method_type payment_subject_type : Int)
    (supplier_inn : Option String) (supplier_phone_numbers : Option (List String))
    (supplier_name : Option String) (agent_type : Option Int)
    (payment_transfer_operator_phone_numbers : Option (List String))
    (payment_agent_operation : Option String)
    (payment_agent_phone_numbers payment_operator_phone_numbers : Option (List String))
    (payment_operator_name payment_operator_address payment_operator_inn : Option String)
    (unit_of_measurement additional_attribute manufacturer_country_code
     customs_declaration_number : Option String)
    (excise tax_sum : Option Rat) (quantity_measurement_unit : Option Int)
    (item_code : Option String)
    (planned_status fractional_quantity_numerator fractional_quantity_denominator : Option Int)
    (industry_attribute_foivId industry_attribute_cause_document_date
     industry_attribute_cause_document_number industry_attribute_value : Option String)
    (barcodes_ean8 barcodes_ean13 barcodes_itf14 barcodes_gs1 barcodes_mi barcodes_egais20
     barcodes_egais30 barcodes_f1 barcodes_f2 barcodes_f3 barcodes_f4 barcodes_f5
     barcodes_f6 : Option String)
    (unit_tax_sum : Option Rat) : Except PyErr Position := do
  let pos ← posBase quantity price tax text
  let pos ← posPayTypes payment_method_type payment_subject_type pos
  let pos := posSupplierINN supplier_inn pos
  let pos ← posSupplierBlock supplier_phone_numbers supplier_name pos
  let pos ← posAgentType agent_type pos
  let pos ← posAgentBlock payment_transfer_operator_phone_numbers payment_agent_operation
      payment_agent_phone_numbers payment_operator_phone_numbers payment_operator_name
      payment_operator_address payment_operator_inn pos
  let pos ← posSimpleFields additional_attribute manufacturer_country_code
      customs_declaration_number excise tax_sum unit_tax_sum pos
  let ffd ← ffdE
  let pos ← if ffd = 2 then posUnitOfMeasurement unit_of_measurement pos else pure pos
  let pos ←
    if ffd = 4 then
      posRev2 quantity_measurement_unit item_code planned_status
        fractional_quantity_numerator fractional_quantity_denominator
        industry_attribute_foivId industry_attribute_cause_document_date
        industry_attribute_cause_document_number industry_attribute_value
        barcodes_ean8 barcodes_ean13 barcodes_itf14 barcodes_gs1 barcodes_mi barcodes_egais20
        barcodes_egais30 barcodes_f1 barcodes_f2 barcodes_f3 barcodes_f4 barcodes_f5
        barcodes_f6 pos
    else pure pos
  pure pos

/-- `add_position_to_order` (lines 112-526): build the local position and
append it to `content['positions']`; an error while building leaves the
client state untouched. -/
def add_position_to_order (st : ClientState) (quantity price : Rat) (tax : Int)
    (text : String) (payment_method_type payment_subject_type : Int)
    (supplier_inn : Option String) (supplier_phone_numbers : Option (List String))
    (supplier_name : Option String) (agent_type : Option Int)
    (payment_transfer_operator_phone_numbers : Option (List String))
    (payment_agent_operation : Option String)
    (payment_agent_phone_numbers payment_operator_phone_numbers : Option (List String))
    (payment_operator_name payment_operator_address payment_operator_inn : Option String)
    (unit_of_measurement additional_attribute manufacturer_country_code
     customs_declaration_number : Option String)
    (excise tax_sum : Option Rat) (quantity_measurement_unit : Option Int)
    (item_code : Option String)
    (planned_status fractional_quantity_numerator fractional_quantity_denominator : Option Int)
    (industry_attribute_foivId industry_attribute_cause_document_date
     industry_attribute_cause_document_number industry_attribute_value : Option String)
    (barcodes_ean8 barcodes_ean13 barcodes_itf14 barcodes_gs1 barcodes_mi barcodes_egais20
     barcodes_egais30 barcodes_f1 barcodes_f2 barcodes_f3 barcodes_f4 barcodes_f5
     barcodes_f6 : Option String)
    (unit_tax_sum : Option Rat) : ClientState × Option PyErr :=
  match buildOrderPosition (ffdLookup st) quantity price tax text payment_method_type
      payment_subject_type supplier_inn supplier_phone_numbers supplier_name agent_type
      payment_transfer_operator_phone_numbers payment_agent_operation
      payment_agent_phone_numbers payment_operator_phone_numbers payment_operator_name
      payment_operator_address payment_operator_inn unit_of_measurement additional_attribute
      manufacturer_country_code customs_declaration_number excise tax_sum
      quantity_measurement_unit item_code planned_status fractional_quantity_numerator
      fractional_quantity_denominator industry_attribute_foivId
      industry_attribute_cause_document_date industry_attribute_cause_document_number
      industry_attribute_value barcodes_ean8 barcodes_ean13 barcodes_itf14 barcodes_gs1
      barcodes_mi barcodes_egais20 barcodes_egais30 barcodes_f1 barcodes_f2 barcodes_f3
      barcodes_f4 barcodes_f5 barcodes_f6 unit_tax_sum with
  | .error e => (st, some e)
  | .ok pos =>
    match st.order_request with
    | none => (st, some (.typeError "NoneType is not subscriptable"))
    | some req =>
      match req.content.positions with
      | none => (st, some (.keyError "positions"))
      | some ps =>
        ({ st with order_request := some { req with content := { req.content with
            positions := some (ps ++ [pos]) } } }, none)

/-- The local `position` dict built by `add_position_to_correction`
(lines 1119-1371): the shared blocks followed by the REVISION_2 block,
processed unconditionally (this builder never reads an ffd version and
has no `unit_of_measurement` parameter). -/
def buildCorrectionPosition (quantity price : Rat) (tax : Int)
    (text : String) (payment_method_type payment_subject_type : Int)
    (supplier_inn : Option String) (supplier_phone_numbers : Option (List String))
    (supplier_name : Option String) (agent_type : Option Int)
    (payment_transfer_operator_phone_numbers : Option (List String))
    (payment_agent_operation : Option String)
    (payment_agent_phone_numbers payment_operator_phone_numbers : Option (List String))
    (payment_operator_name payment_operator_address payment_operator_inn : Option String)
    (additional_attribute manufacturer_country_code customs_declaration_number : Option String)
    (excise tax_sum : Option Rat) (quantity_measurement_unit : Option Int)
    (item_code : Option String)
    (planned_status fractional_quantity_numerator fractional_quantity_denominator : Option Int)
    (industry_attribute_foivId industry_attribute_cause_document_date
     industry_attribute_cause_document_number industry_attribute_value : Option String)
    (barcodes_ean8 barcodes_ean13 barcodes_itf14 barcodes_gs1 barcodes_mi barcodes_egais20
     barcodes_egais30 barcodes_f1 barcodes_f2 barcodes_f3 barcodes_f4 barcodes_f5
     barcodes_f6 : Option String)
    (unit_tax_sum : Option Rat) : Except PyErr Position := do
  let pos ← posBase quantity price tax text
  let pos ← posPayTypes payment_method_type payment_subject_type pos
  let pos := posSupplierINN supplier_inn pos
  let pos ← posSupplierBlock supplier_phone_numbers supplier_name pos
  let pos ← posAgentType agent_type pos
  let pos ← posAgentBlock payment_transfer_operator_phone_numbers payment_agent_operation
      payment_agent_phone_numbers payment_operator_phone_numbers payment_operator_name
      payment_operator_address payment_operator_inn pos
  let pos ← posSimpleFields additional_attribute manufacturer_country_code
      customs_declaration_number excise tax_sum unit_tax_sum pos
  let pos ← posRev2 quantity_measurement_unit item_code planned_status
      fractional_quantity_numerator fractional_quantity_denominator
      industry_attribute_foivId industry_attribute_cause_document_date
      industry_attribute_cause_document_number industry_attribute_value
      barcodes_ean8 barcodes_ean13 barcodes_itf14 barcodes_gs1 barcodes_mi barcodes_egais20
      barcodes_egais30 barcodes_f1 barcodes_f2 barcodes_f3 barcodes_f4 barcodes_f5
      barcodes_f6 pos
  pure pos

/-- `add_position_to_correction` (lines 970-1373): build the local
position and append it to the correction's `content['positions']`. -/
def add_position_to_correction (st : ClientState) (quantity price : Rat) (tax : Int)
    (text : String) (payment_method_type payment_subject_type : Int)
    (supplier_inn : Option String) (supplier_phone_numbers : Option (List String))
    (supplier_name : Option String) (agent_type : Option Int)
    (payment_transfer_operator_phone_numbers : Option (List String))
    (payment_agent_operation : Option String)
    (payment_agent_phone_numbers payment_operator_phone_numbers : Option (List String))
    (payment_operator_name payment_operator_address payment_operator_inn : Option String)
    (additional_attribute manufacturer_country_code customs_declaration_number : Option String)
    (excise tax_sum : Option Rat) (quantity_measurement_unit : Option Int)
    (item_code : Option String)
    (planned_status fractional_quantity_numerator fractional_quantity_denominator : Option Int)
    (industry_attribute_foivId industry_attribute_cause_document_date
     industry_attribute_cause_document_number industry_attribute_value : Option String)
    (barcodes_ean8 barcodes_ean13 barcodes_itf14 barcodes_gs1 barcodes_mi barcodes_egais20
     barcodes_egais30 barcodes_f1 barcodes_f2 barcodes_f3 barcodes_f4 barcodes_f5
     barcodes_f6 : Option String)
    (unit_tax_sum : Option Rat) : ClientState × Option PyErr :=
  match buildCorrectionPosition quantity price tax text payment_method_type
      payment_subject_type supplier_inn supplier_phone_numbers supplier_name agent_type
      payment_transfer_operator_phone_numbers payment_agent_operation
      payment_agent_phone_numbers payment_operator_phone_numbers payment_operator_name
      payment_operator_address payment_operator_inn additional_attribute
      manufacturer_country_code customs_declaration_number excise tax_sum
      quantity_measurement_unit item_code planned_status fractional_quantity_numerator
      fractional_quantity_denominator industry_attribute_foivId
      industry_attribute_cause_document_date industry_attribute_cause_document_number
      industry_attribute_value barcodes_ean8 barcodes_ean13 barcodes_itf14 barcodes_gs1
      barcodes_mi barcodes_egais20 barcodes_egais30 barcodes_f1 barcodes_f2 barcodes_f3
      barcodes_f4 barcodes_f5 barcodes_f6 unit_tax_sum with
  | .error e => (st, some e)
  | .ok pos =>
    match st.correction_request with
    | none => (st, some (.typeError "NoneType is not subscriptable"))
    | some req =>
      match req.content.positions with
      | none => (st, some (.keyError "positions"))
      | some ps =>
        ({ st with correction_request := some { req with content := { req.content with
            positions := some (ps ++ [pos]) } } }, none)

/-! ### Concrete fixtures and accessors used by the claim theorems -/

/-- A freshly constructed client with no document in progress
(`__order_request = None`, `__correction_request = None`). -/
def st0 : ClientState := { inn := "1234567890" }

/-- The order request produced by
`create_order("A1", 1, "user@example.com", 1, ffd_version=2)` on a fresh
client: an FFD 1.05 order with empty positions and payments. -/
def req105 : OrderRequest :=
  { id := "A1", inn := "1234567890",
    content := { ffdVersion := some 2, type := some 1, positions := some [],
                 checkClose := some { taxationSystem := some 1 },
                 customerContact := some "user@example.com" } }

/-- A client holding the FFD 1.05 order `req105`. -/
def stOrder105 : ClientState := { st0 with order_request := some req105 }

/-- Same as `req105` but with `ffd_version=4` (FFD 1.2). -/
def req12 : OrderRequest :=
  { id := "A1", inn := "1234567890",
    content := { ffdVersion := some 4, type := some 1, positions := some [],
                 checkClose := some { taxationSystem := some 1 },
                 customerContact := some "user@example.com" } }

/-- A client holding the FFD 1.2 order `req12`. -/
def stOrder12 : ClientState := { st0 with order_request := some req12 }

/-- A correction request as initialised by `create_correction12`
(lines 912-942): empty positions and payments, FFD 1.2. -/
def corrReq : CorrectionRequest :=
  { id := "C1", inn := "1234567890",
    content := { positions := some [], checkClose := some {},
                 correctionType := some 0, type := some 1,
                 customerContact := some "user@example.com", ffdVersion := some 4 } }

/-- A client holding the correction `corrReq`. -/
def stCorr : ClientState := { st0 with correction_request := some corrReq }

/-- The in-progress order's positions list. -/
def orderPositions (st : ClientState) : Option (List Position) :=
  st.order_request.bind (fun r => r.content.positions)

/-- The most recently appended order position. -/
def lastOrderPosition (st : ClientState) : Option Position :=
  (orderPositions st).bind List.getLast?

/-- The in-progress correction's positions list. -/
def corrPositions (st : ClientState) : Option (List Position) :=
  st.correction_request.bind (fun r => r.content.positions)

/-- The most recently appended correction position. -/
def lastCorrPosition (st : ClientState) : Option Position :=
  (corrPositions st).bind List.getLast?

/-- The document-level `content['agentType']` value. -/
def orderAgentType (st : ClientState) : Option Rat :=
  st.order_request.bind (fun r => r.content.agentType)

/-- The document-level `content['additionalUserAttribute']` dict. -/
def orderUserAttr (st : ClientState) : Option AdditionalUserAttribute :=
  st.order_request.bind (fun r => r.content.additionalUserAttribute)

/-- `add_position_to_order` on the FFD 1.2 order `stOrder12` with valid
base fields (`quantity=1, price=1, tax=1, text="Item"`, default
`payment_method_type=4`, `payment_subject_type=1`) and every optional
argument absent except `supplier_inn`, `item_code`, `planned_status`,
`barcodes_ean8` and `barcodes_ean13`. -/
def addPosOrder12 (supplier_inn item_code : Option String) (planned_status : Option Int)
    (barcodes_ean8 barcodes_ean13 : Option String) : ClientState × Option PyErr :=
  add_position_to_order stOrder12 1 1 1 "Item" 4 1 supplier_inn none none none
    none none none none none none none
    none
    none none none
    none none
    none item_code planned_status none none
    none none none none
    barcodes_ean8 barcodes_ean13 none none none none none
    none none none none none none
    none

/-- `add_position_to_order` on the FFD 1.05 order `stOrder105` with valid
base fields and every optional argument absent except `supplier_inn`,
`supplier_phone_numbers` and `supplier_name`. -/
def addPosOrder105 (supplier_inn : Option String) (supplier_phone_numbers : Option (List String))
    (supplier_name : Option String) : ClientState × Option PyErr :=
  add_position_to_order stOrder105 1 1 1 "Item" 4 1 supplier_inn supplier_phone_numbers
    supplier_name none
    none none none none none none none
    none
    none none none
    none none
    none none none none none
    none none none none
    none none none none none none none
    none none none none none none
    none

/-- `add_position_to_correction` on the correction `stCorr` with valid
base fields and every optional argument absent except `supplier_inn`,
`item_code`, `planned_status`, `barcodes_egais20` and `barcodes_egais30`. -/
def addPosCorr (supplier_inn item_code : Option String) (planned_status : Option Int)
    (barcodes_egais20 barcodes_egais30 : Option String) : ClientState × Option PyErr :=
  add_position_to_correction stCorr 1 1 1 "Item" 4 1 supplier_inn none none none
    none none none none none none none
    none none none
    none none
    none item_code planned_status none none
    none none none none
    none none none none none barcodes_egais20 barcodes_egais30
    none none none none none none
    none

/-- The eleven valid supplier phone numbers (eight of length 18, three of
length 17) whose serialized size `sum(len) + 4 * count = 195 + 44` is
exactly 239, driving the supplier-name ceiling to 0. -/
def c4phones : List String :=
  List.replicate 8 "+7-(123)-123456789" ++ List.replicate 3 "+7-(123)-12345678"

/-! ### Helper lemmas -/

@[simp] lemma truthyStr_none : truthyStr none = false := rfl

@[simp] lemma truthyStr_some (s : String) : truthyStr (some s) = decide (s ≠ "") := rfl

@[simp] lemma truthyInt_none : truthyInt none = false := rfl

@[simp] lemma truthyInt_some (n : Int) : truthyInt (some n) = decide (n ≠ 0) := rfl

@[simp] lemma truthyList_none : truthyList none = false := rfl

@[simp] lemma truthyRat_none : truthyRat none = false := rfl

@[simp] lemma pyTruthy_none : pyTruthy none = false := rfl

@[simp] lemma pyTruthy_some (b : Bool) : pyTruthy (some b) = b := rfl

@[simp] lemma exceptPure {ε α : Type} (a : α) : (pure a : Except ε α) = Except.ok a := rfl

@[simp] lemma exceptOkBind {ε α β : Type} (a : α) (f : α → Except ε β) :
    (Except.ok a : Except ε α) >>= f = f a := rfl

@[simp] lemma exceptErrorBind {ε α β : Type} (e : ε) (f : α → Except ε β) :
    (Except.error e : Except ε α) >>= f = Except.error e := rfl

/-- The embedded `2 ** a` agrees with the rational power. -/
lemma pyPow2_eq_zpow : ∀ a : Int, pyPow2 a = (2 : Rat) ^ a := by
  intro a
  rcases le_or_lt 0 a with h | h
  · rw [pyPow2, if_pos h]
    push_cast
    rw [← zpow_natCast, Int.toNat_of_nonneg h]
  · rw [pyPow2, if_neg (not_le.mpr h), Rat.mkRat_eq_div]
    push_cast
    rw [← zpow_natCast, Int.toNat_of_nonneg (by omega : (0:Int) ≤ -a), one_div, ← zpow_neg,
      neg_neg]

/-- `length_is_valid` with two nonzero bounds is the conjunction of the
two length comparisons. -/
lemma length_is_valid_both (s : String) (lo hi : Int) (hlo : lo ≠ 0) (hhi : hi ≠ 0) :
    length_is_valid s (some lo) (some hi) =
      some (decide (lo ≤ (s.length : Int)) && decide ((s.length : Int) ≤ hi)) := by
  simp only [length_is_valid, truthyInt, Option.getD_some]
  by_cases h : lo ≤ (s.length : Int) <;> simp [h, hlo, hhi]

@[simp] lemma posSupplierINN_none (pos : Position) : posSupplierINN none pos = pos := rfl

@[simp] lemma posSupplierBlock_none (pos : Position) :
    posSupplierBlock none none pos = .ok pos := rfl

@[simp] lemma posAgentType_none (pos : Position) : posAgentType none pos = .ok pos := rfl

@[simp] lemma posAgentBlock_none (pos : Position) :
    posAgentBlock none none none none none none none pos = .ok pos := rfl

@[simp] lemma posAgentPhones_none (msg : String) (f : AgentInfo → List String → AgentInfo)
    (pos : Position) : posAgentPhones none msg f pos = .ok pos := rfl

@[simp] lemma posAgentText_none (lo hi : Int) (msg : String)
    (f : AgentInfo → String → AgentInfo) (pos : Position) :
    posAgentText none lo hi msg f pos = .ok pos := rfl

@[simp] lemma posOptText_none (lo hi : Int) (msg : String)
    (f : Position → String → Position) (pos : Position) :
    posOptText none lo hi msg f pos = .ok pos := rfl

@[simp] lemma posIndText_none (lo hi : Int) (msg : String)
    (f : IndustryAttribute → String → IndustryAttribute) (pos : Position) :
    posIndText none lo hi msg f pos = .ok pos := rfl

@[simp] lemma posBarcode_none (measured : Option String) (n : Nat) (msg : String)
    (f : Barcodes → String → Barcodes) (pos : Position) :
    posBarcode none measured n msg f pos = .ok pos := rfl

@[simp] lemma posBarcodeRange_none (lo hi : Int) (msg : String)
    (f : Barcodes → String → Barcodes) (pos : Position) :
    posBarcodeRange none lo hi msg f pos = .ok pos := rfl

@[simp] lemma posSimpleFields_none (pos : Position) :
    posSimpleFields none none none none none none pos = .ok pos := rfl

@[simp] lemma posUnitOfMeasurement_none (pos : Position) :
    posUnitOfMeasurement none pos = .ok pos := rfl

@[simp] lemma posRev2_none (pos : Position) :
    posRev2 none none none none none none none none none none none none none none none none
      none none none none none none pos =
      .ok { pos with industryAttribute := some {}, barcodes := some {} } := rfl

/-- A truthy `supplier_inn` is stored exactly when its length is 10-13,
and dropped without error otherwise. -/
lemma posSupplierINN_some (inn : String) (h : inn ≠ "") (pos : Position) :
    posSupplierINN (some inn) pos =
      (if 10 ≤ inn.length ∧ inn.length ≤ 13 then { pos with supplierINN := some inn }
       else pos) := by
  have hcast : (10 ≤ inn.length ∧ inn.length ≤ 13) ↔
      ((10 : Int) ≤ (inn.length : Int) ∧ ((inn.length : Int)) ≤ 13) := by
    constructor <;> intro hc <;> exact ⟨by exact_mod_cast hc.1, by exact_mod_cast hc.2⟩
  simp only [posSupplierINN, truthyStr_some, Option.getD_some,
    length_is_valid_both inn 10 13 (by norm_num) (by norm_num), pyTruthy_some]
  rw [if_pos (by simp [h])]
  by_cases hl : 10 ≤ inn.length ∧ inn.length ≤ 13
  · rw [if_pos hl]
    have h1 := (hcast.mp hl).1
    have h2 := (hcast.mp hl).2
    simp [h1, h2]
  · rw [if_neg hl]
    rcases not_and_or.mp ((not_congr hcast).mp hl) with hc | hc <;> simp [hc]

/-- The base field group succeeds exactly on the claimed valid inputs. -/
lemma posBase_ok (q p : Rat) (tax : Int) (text : String)
    (htax : tax = 1 ∨ tax = 2 ∨ tax = 3 ∨ tax = 4 ∨ tax = 5 ∨ tax = 6)
    (htext : text.length ≤ 128) :
    posBase q p tax text = .ok { quantity := q, price := p, tax := tax, text := text } := by
  have hl : pyTruthy (length_is_valid text none (some 128)) = true := by
    simp only [length_is_valid, truthyInt, pyTruthy]
    simp
    exact_mod_cast htext
  rw [posBase, if_pos ⟨htax, hl⟩]

/-! ### The claims -/

/-- C1 counterexample: the claim that every builder mutation leaves the
in-progress document unchanged on a validation error is false.
`add_user_attribute` on the order `stOrder105` with a 65-character name
raises the name-length validation error, yet the resulting state differs
from the input state: `content['additionalUserAttribute']` has been reset
to an empty dict before the check ran. -/
theorem c1_counterexample :
    (add_user_attribute stOrder105 (String.mk (List.replicate 65 'x')) "v").2 =
      some (.validation "String name is too long") ∧
    (add_user_attribute stOrder105 (String.mk (List.replicate 65 'x')) "v").1 ≠ stOrder105 ∧
    orderUserAttr (add_user_attribute stOrder105 (String.mk (List.replicate 65 'x')) "v").1 =
      some { name := none, value := none } ∧
    orderUserAttr stOrder105 = none :=
  ⟨by decide, by decide, by decide, by decide⟩

/-- C1 (amended): of the builder mutation operations, exactly
`add_position_to_order`, `add_position_to_correction` and
`add_payment_to_order` are atomic — whenever they raise, the client state
(order request and correction request) is exactly what it was before the
call; `create_order`, `add_agent_to_order` and `add_user_attribute`
mutate the in-progress document before validating and can leave partial
writes behind a raised error. -/
theorem c1_amended_atomicity :
    ∀ (st : ClientState) (q p : Rat) (tax : Int) (text : String) (pm ps : Int)
      (si : Option String) (sp : Option (List String)) (sn : Option String)
      (agt : Option Int) (ptop : Option (List String)) (pao : Option String)
      (papn popn : Option (List String)) (pon poa poi : Option String)
      (uom aa mcc cdn : Option String) (ex tsum : Option Rat) (qmu : Option Int)
      (ic : Option String) (pst fn fd : Option Int) (foiv cdd cnum ival : Option String)
      (e8 e13 i14 g1 mi g20 g30 f1 f2 f3 f4 f5 f6 : Option String) (uts : Option Rat)
      (ptype : Int) (amount : Rat),
    ((add_position_to_order st q p tax text pm ps si sp sn agt ptop pao papn popn pon poa poi
        uom aa mcc cdn ex tsum qmu ic pst fn fd foiv cdd cnum ival
        e8 e13 i14 g1 mi g20 g30 f1 f2 f3 f4 f5 f6 uts).2.isSome = true →
      (add_position_to_order st q p tax text pm ps si sp sn agt ptop pao papn popn pon poa poi
        uom aa mcc cdn ex tsum qmu ic pst fn fd foiv cdd cnum ival
        e8 e13 i14 g1 mi g20 g30 f1 f2 f3 f4 f5 f6 uts).1 = st) ∧
    ((add_position_to_correction st q p tax text pm ps si sp sn agt ptop pao papn popn pon poa
        poi aa mcc cdn ex tsum qmu ic pst fn fd foiv cdd cnum ival
        e8 e13 i14 g1 mi g20 g30 f1 f2 f3 f4 f5 f6 uts).2.isSome = true →
      (add_position_to_correction st q p tax text pm ps si sp sn agt ptop pao papn popn pon poa
        poi aa mcc cdn ex tsum qmu ic pst fn fd foiv cdd cnum ival
        e8 e13 i14 g1 mi g20 g30 f1 f2 f3 f4 f5 f6 uts).1 = st) ∧
    ((add_payment_to_order st ptype amount).2.isSome = true →
      (add_payment_to_order st ptype amount).1 = st) := by
  intro st q p tax text pm ps si sp sn agt ptop pao papn popn pon poa poi uom aa mcc cdn
    ex tsum qmu ic pst fn fd foiv cdd cnum ival e8 e13 i14 g1 mi g20 g30 f1 f2 f3 f4 f5 f6
    uts ptype amount
  refine ⟨?_, ?_, ?_⟩
  · unfold add_position_to_order
    split
    · intro _; rfl
    · split
      · intro _; rfl
      · split
        · intro _; rfl
        · intro h; simp at h
  · unfold add_position_to_correction
    split
    · intro _; rfl
    · split
      · intro _; rfl
      · split
        · intro _; rfl
        · intro h; simp at h
  · unfold add_payment_to_order
    split
    · split
      · intro _; rfl
      · split
        · intro _; rfl
        · intro h; simp at h
    · intro _; rfl

/-- C1 (amended) witness: a concrete failing `add_position_to_order` call
(invalid tax 99) leaves the state unchanged. -/
theorem c1_amended_witness :
    (add_position_to_order stOrder105 1 1 99 "Item" 4 1 none none none none none none none none none none none none none none none none none none none none none none none none none none none none none none none none none none none none none none none none).1 = stOrder105 :=
  (c1_amended_atomicity stOrder105 1 1 99 "Item" 4 1 none none none none none none none none none none none none none none none none none none none none none none none none none none none none none none none none none none none none none none none none 1 1).1 (by decide)

/-- C3: with a valid ffd version, `create_order` checks the order type
first, then the taxation system, then the customer contact; the first
violated constraint raises its own validation error immediately (in
particular an order type outside 1-4 is reported whatever the other two
values are), and when all three pass no error is raised. -/
theorem c3_create_order_check_order :
    ∀ (st : ClientState) (id_ : String) (type_ : Int) (cc : String) (ts : Int)
      (group key : Option String) (ffd ick : Int),
    (ffd = 2 ∨ ffd = 4) →
    (¬ (type_ = 1 ∨ type_ = 2 ∨ type_ = 3 ∨ type_ = 4) →
      (create_order st id_ type_ cc ts group key ffd ick).2 =
        some (.validation "Incorrect order Type")) ∧
    ((type_ = 1 ∨ type_ = 2 ∨ type_ = 3 ∨ type_ = 4) →
      ¬ (ts = 0 ∨ ts = 1 ∨ ts = 2 ∨ ts = 3 ∨ ts = 4 ∨ ts = 5) →
      (create_order st id_ type_ cc ts group key ffd ick).2 =
        some (.validation "Incorrect taxationSystem")) ∧
    ((type_ = 1 ∨ type_ = 2 ∨ type_ = 3 ∨ type_ = 4) →
      (ts = 0 ∨ ts = 1 ∨ ts = 2 ∨ ts = 3 ∨ ts = 4 ∨ ts = 5) →
      ¬ (cc.contains '@' = true ∨ phone_is_valid cc = true) →
      (create_order st id_ type_ cc ts group key ffd ick).2 =
        some (.validation "Incorrect customer Contact")) ∧
    ((type_ = 1 ∨ type_ = 2 ∨ type_ = 3 ∨ type_ = 4) →
      (ts = 0 ∨ ts = 1 ∨ ts = 2 ∨ ts = 3 ∨ ts = 4 ∨ ts = 5) →
      (cc.contains '@' = true ∨ phone_is_valid cc = true) →
      (create_order st id_ type_ cc ts group key ffd ick).2 = none) := by
  intro st id_ type_ cc ts group key ffd ick hffd
  refine ⟨fun hty => ?_, fun hty hts => ?_, fun hty hts hcc => ?_, fun hty hts hcc => ?_⟩ <;>
    simp only [create_order]
  · rw [if_pos hffd, if_neg hty]
  · rw [if_pos hffd, if_pos hty, if_neg hts]
  · rw [if_pos hffd, if_pos hty, if_pos hts, if_neg hcc]
  · rw [if_pos hffd, if_pos hty, if_pos hts, if_pos hcc]

/-- C3 witness: `create_order` with order type 5 (and taxation system and
contact that would themselves pass) raises the order-type error. -/
theorem c3_witness :
    (create_order st0 "A1" 5 "user@example.com" 1 none none 2 0).2 =
      some (.validation "Incorrect order Type") :=
  (c3_create_order_check_order st0 "A1" 5 "user@example.com" 1 none none 2 0
    (Or.inl rfl)).1 (by decide)

/-- C5: on a client with an order in progress, `add_user_attribute`
succeeds exactly when `1 ≤ len(name) ≤ 64` and
`1 ≤ len(value + name) ≤ 234`, and on success stores both strings under
`content['additionalUserAttribute']`. -/
theorem c5_add_user_attribute :
    ∀ (st : ClientState) (req : OrderRequest) (name value : String),
    st.order_request = some req →
    (((add_user_attribute st name value).2 = none) ↔
      (1 ≤ name.length ∧ name.length ≤ 64 ∧
       1 ≤ (value ++ name).length ∧ (value ++ name).length ≤ 234)) ∧
    ((add_user_attribute st name value).2 = none →
      orderUserAttr (add_user_attribute st name value).1 =
        some { name := some name, value := some value }) := by
  intro st req name value hreq
  simp only [add_user_attribute, hreq,
    length_is_valid_both name 1 64 one_ne_zero (by norm_num),
    length_is_valid_both (value ++ name) 1 234 one_ne_zero (by norm_num), pyTruthy_some,
    String.length_append]
  by_cases h1 : (1 : Int) ≤ (name.length : Int) <;>
    by_cases h2 : (name.length : Int) ≤ 64 <;>
      by_cases h3 : ((1 : Int) ≤ (value.length : Int) + (name.length : Int)) <;>
        by_cases h4 : ((value.length : Int) + (name.length : Int) ≤ 234) <;>
          simp [h1, h2, h3, h4, orderUserAttr, String.length_append] <;> omega

/-- C5 witness: a short name/value pair is accepted. -/
theorem c5_witness :
    (add_user_attribute stOrder105 "n" "v").2 = none :=
  ((c5_add_user_attribute stOrder105 req105 "n" "v" rfl).1).mpr (by decide)

/-- C6 counterexample: with neither bound supplied, `length_is_valid`
does not return `True` — it returns `None` (which is falsy), refuting the
claim that the result is true when no bound is given. -/
theorem c6_counterexample : ¬ (length_is_valid "abc" none none = some true) := by decide

/-- C6 (amended): `length_is_valid` returns `True` iff at least one bound
is supplied and truthy (nonzero) and every truthy bound is satisfied by
the length; a bound that is absent or `0` imposes no constraint (each
bound checked independently); and when no truthy bound is supplied the
result is `None` — falsy — rather than `True`. -/
theorem c6_amended : ∀ (s : String) (min_ max_ : Option Int),
    (length_is_valid s min_ max_ = some true ↔
      (truthyInt min_ = true ∨ truthyInt max_ = true) ∧
      (truthyInt min_ = true → min_.getD 0 ≤ (s.length : Int)) ∧
      (truthyInt max_ = true → (s.length : Int) ≤ max_.getD 0)) ∧
    (length_is_valid s min_ max_ = none ↔
      (truthyInt min_ = false ∧ truthyInt max_ = false)) := by
  intro s mn mx
  simp only [length_is_valid]
  by_cases hle : mn.getD 0 ≤ (s.length : Int) <;>
    cases hmn : truthyInt mn <;> cases hmx : truthyInt mx <;>
      simp [hmn, hmx, hle]

/-- C7: with valid base fields but an invalid payment method/subject
pair, `add_position_to_order` raises the single combined
`payment_method_type`/`payment_subject_type` validation error and leaves
the state — in particular the positions list — unchanged, whatever every
other argument is. -/
theorem c7_invalid_payment_pair :
    ∀ (st : ClientState) (q p : Rat) (tax : Int) (text : String) (pm ps : Int)
      (si : Option String) (sp : Option (List String)) (sn : Option String)
      (agt : Option Int) (ptop : Option (List String)) (pao : Option String)
      (papn popn : Option (List String)) (pon poa poi : Option String)
      (uom aa mcc cdn : Option String) (ex tsum : Option Rat) (qmu : Option Int)
      (ic : Option String) (pst fn fd : Option Int) (foiv cdd cnum ival : Option String)
      (e8 e13 i14 g1 mi g20 g30 f1 f2 f3 f4 f5 f6 : Option String) (uts : Option Rat),
    (tax = 1 ∨ tax = 2 ∨ tax = 3 ∨ tax = 4 ∨ tax = 5 ∨ tax = 6) →
    text.length ≤ 128 →
    ¬ ((pm = 1 ∨ pm = 2 ∨ pm = 3 ∨ pm = 4 ∨ pm = 5 ∨ pm = 6 ∨ pm = 7) ∧
       (ps = 1 ∨ ps = 2 ∨ ps = 3 ∨ ps = 4 ∨ ps = 5 ∨ ps = 6 ∨ ps = 7 ∨ ps = 8 ∨ ps = 9 ∨
        ps = 10 ∨ ps = 11 ∨ ps = 12 ∨ ps = 13)) →
    add_position_to_order st q p tax text pm ps si sp sn agt ptop pao papn popn pon poa poi
        uom aa mcc cdn ex tsum qmu ic pst fn fd foiv cdd cnum ival
        e8 e13 i14 g1 mi g20 g30 f1 f2 f3 f4 f5 f6 uts =
      (st, some (.validation "Invalid Position payment_method_type or payment_subject_type")) := by
  intro st q p tax text pm ps si sp sn agt ptop pao papn popn pon poa poi uom aa mcc cdn
    ex tsum qmu ic pst fn fd foiv cdd cnum ival e8 e13 i14 g1 mi g20 g30 f1 f2 f3 f4 f5 f6
    uts htax htext hpair
  have hpay : posPayTypes pm ps
      { quantity := q, price := p, tax := tax, text := text } =
      .error (.validation "Invalid Position payment_method_type or payment_subject_type") := by
    rw [posPayTypes, if_neg hpair]
  simp only [add_position_to_order, buildOrderPosition, posBase_ok q p tax text htax htext,
    exceptOkBind, hpay, exceptErrorBind]

/-- C7 witness: `payment_subject_type = 99` with valid base fields is
rejected with the combined error and the state is unchanged. -/
theorem c7_witness :
    add_position_to_order stOrder105 1 1 1 "Item" 4 99 none none none none none none none none none none none none none none none none none none none none none none none none none none none none none none none none none none none none none none none none =
      (stOrder105, some (.validation "Invalid Position payment_method_type or payment_subject_type")) :=
  c7_invalid_payment_pair stOrder105 1 1 1 "Item" 4 99 none none none none none none none none none none none none none none none none none none none none none none none none none none none none none none none none none none none none none none none none
    (by norm_num) (by decide) (by decide)

/-- C2 (code bug): the FFD 1.2 barcode checks measure the wrong field.
With `barcodes_ean8` of length 8 and `barcodes_ean13` of length 13 — both
satisfying their own declared lengths — `add_position_to_order` raises
`Invalid barcodes_ean13`, because line 466 tests `len(barcodes_ean8) == 13`;
the state is unchanged.  Likewise `add_position_to_correction` with a
23-character `barcodes_egais20` and a 14-character `barcodes_egais30`
raises `Invalid barcodes_egais30` (line 1338 tests
`len(barcodes_egais20) == 14`), and a supplied `barcodes_ean13` without
`barcodes_ean8` even raises `TypeError` from `len(None)`. -/
theorem c2_wrong_field_barcode_checks :
    (addPosOrder12 none none none (some "12345678") (some "1234567890123")).2 =
      some (.validation "Invalid barcodes_ean13") ∧
    (addPosOrder12 none none none (some "12345678") (some "1234567890123")).1 = stOrder12 ∧
    (addPosCorr none none none (some "12345678901234567890123") (some "12345678901234")).2 =
      some (.validation "Invalid barcodes_egais30") ∧
    (addPosOrder12 none none none none (some "1234567890123")).2 =
      some (.typeError "object of type NoneType has no len") :=
  ⟨by decide, by decide, by decide, by decide⟩

set_option maxRecDepth 100000

/-- C4 (code bug): the documented ceiling examples hold — with two
12-character supplier phones a 207-character name is accepted and a
208-character name rejected — but when the serialized phone list reaches
exactly 239 characters (eleven valid phones, `sum(len) + 4*11 = 239`) the
computed `max_length` is 0, which `length_is_valid` treats as an absent
bound, so a 1-character name is accepted and stored even though the
claimed ceiling `239 - Σ(len+4) = 0` demands rejection. -/
theorem c4_supplier_name_ceiling :
    (addPosOrder105 none (some ["+79991234567", "+79997654321"])
      (some (String.mk (List.replicate 207 'x')))).2 = none ∧
    (addPosOrder105 none (some ["+79991234567", "+79997654321"])
      (some (String.mk (List.replicate 208 'x')))).2 =
      some (.validation "Invalid supplier name") ∧
    c4phones.all phone_is_valid = true ∧
    ((c4phones.map String.length).sum : Int) + 4 * (c4phones.length : Int) = 239 ∧
    (addPosOrder105 none (some c4phones) (some "x")).2 = none ∧
    (lastOrderPosition (addPosOrder105 none (some c4phones) (some "x")).1).map
      (fun pos => (pos.supplierInfo.getD {}).name) = some (some "x") :=
  ⟨by decide, by decide, by decide, by decide, by decide, by decide⟩

/-- C8 (code bug): `add_agent_to_order` with the documented agent type 0
(bank payment agent) stores nothing and raises nothing — the `if
agent_type:` guard treats 0 as absent, so `content['agentType']` never
receives the claimed value `2 ** 0 = 1`; nonzero values behave as claimed
(1 stores 2, 3 stores 8, 6 stores 64, 7 is rejected because 2^7 = 128
does not lie strictly below 128). -/
theorem c8_agent_type_zero_skipped :
    (add_agent_to_order stOrder105 (some 0) none none none none none none none none
      none none none) = (stOrder105, none) ∧
    orderAgentType stOrder105 = none ∧
    orderAgentType (add_agent_to_order stOrder105 (some 1) none none none none none none
      none none none none none).1 = some 2 ∧
    orderAgentType (add_agent_to_order stOrder105 (some 3) none none none none none none
      none none none none none).1 = some 8 ∧
    orderAgentType (add_agent_to_order stOrder105 (some 6) none none none none none none
      none none none none none).1 = some 64 ∧
    (add_agent_to_order stOrder105 (some 7) none none none none none none none none
      none none none).2 = some (.validation "Invalid agent_type") :=
  ⟨by decide, by decide, by decide, by decide, by decide, by decide⟩

/-- C9: under FFD 1.2 (`add_position_to_order`) and in
`add_position_to_correction`, a `planned_status` passing its range check
`0 < planned_status < 256` is stored under the position key `itemCode`,
overwriting any `item_code` stored earlier in the same call; no
`plannedStatus` key exists, and the resulting position differs from the
same call without `planned_status` only in that `itemCode` field. -/
theorem c9_planned_status_stored_as_itemCode :
    ∀ (ic : Option String) (p : Int),
    (∀ s, ic = some s → 1 ≤ s.length ∧ s.length ≤ 223) →
    0 < p → p < 256 →
    (addPosOrder12 none ic (some p) none none).2 = none ∧
    (addPosOrder12 none ic none none none).2 = none ∧
    lastOrderPosition (addPosOrder12 none ic (some p) none none).1 =
      (lastOrderPosition (addPosOrder12 none ic none none none).1).map
        (fun q => { q with itemCode := some (Sum.inr p) }) ∧
    (addPosCorr none ic (some p) none none).2 = none ∧
    (addPosCorr none ic none none none).2 = none ∧
    lastCorrPosition (addPosCorr none ic (some p) none none).1 =
      (lastCorrPosition (addPosCorr none ic none none none).1).map
        (fun q => { q with itemCode := some (Sum.inr p) }) := by
  intro ic p hic hp1 hp2
  have hbase : posBase 1 1 1 "Item" =
      .ok { quantity := 1, price := 1, tax := 1, text := "Item" } := rfl
  have hpay : posPayTypes 4 1 { quantity := 1, price := 1, tax := 1, text := "Item" } =
      .ok { quantity := 1, price := 1, tax := 1, text := "Item",
            paymentMethodType := some 4, paymentSubjectType := some 1 } := rfl
  have hp0 : p ≠ 0 := by omega
  rcases ic with _ | s
  · refine ⟨?_, ?_, ?_, ?_, ?_, ?_⟩ <;>
      simp [addPosOrder12, addPosCorr, add_position_to_order, add_position_to_correction,
        buildOrderPosition, buildCorrectionPosition, hbase, hpay, ffdLookup, posRev2,
        hp0, hp1, hp2,
        stOrder12, req12, stCorr, corrReq, st0,
        lastOrderPosition, orderPositions, lastCorrPosition, corrPositions, List.getLast?]
  · obtain ⟨hs1, hs2⟩ := hic s rfl
    have hs0 : s ≠ "" := by
      intro he
      rw [he] at hs1
      simp at hs1
    have hsl1 : (1 : Int) ≤ (s.length : Int) := by exact_mod_cast hs1
    have hsl2 : ((s.length : Int)) ≤ 223 := by exact_mod_cast hs2
    refine ⟨?_, ?_, ?_, ?_, ?_, ?_⟩ <;>
      simp [addPosOrder12, addPosCorr, add_position_to_order, add_position_to_correction,
        buildOrderPosition, buildCorrectionPosition, hbase, hpay, ffdLookup, posRev2,
        hp0, hp1, hp2, hs0, hsl1, hsl2,
        length_is_valid_both s 1 223 (by norm_num) (by norm_num),
        stOrder12, req12, stCorr, corrReq, st0,
        lastOrderPosition, orderPositions, lastCorrPosition, corrPositions, List.getLast?]

/-- C9 witness: `item_code = "CODE"` with `planned_status = 7` stores the
number 7 under `itemCode`. -/
theorem c9_witness :
    (addPosOrder12 none (some "CODE") (some 7) none none).2 = none ∧
    lastOrderPosition (addPosOrder12 none (some "CODE") (some 7) none none).1 =
      (lastOrderPosition (addPosOrder12 none (some "CODE") none none none).1).map
        (fun q => { q with itemCode := some (Sum.inr 7) }) := by
  have hmain := c9_planned_status_stored_as_itemCode (some "CODE") 7
    (by intro s hs; cases hs; exact ⟨by decide, by decide⟩) (by norm_num) (by norm_num)
  exact ⟨hmain.1, hmain.2.2.1⟩

/-- C10: a non-empty `supplier_inn` never aborts `add_position_to_order`
or `add_position_to_correction`: the call succeeds whatever the length,
and `supplierINN` is stored on the appended position exactly when the
length is 10-13 — an out-of-range value is silently dropped rather than
raising a validation error. -/
theorem c10_supplier_inn :
    ∀ (inn : String), inn ≠ "" →
    (addPosOrder105 (some inn) none none).2 = none ∧
    (addPosCorr (some inn) none none none none).2 = none ∧
    (lastOrderPosition (addPosOrder105 (some inn) none none).1).map Position.supplierINN =
      some (if 10 ≤ inn.length ∧ inn.length ≤ 13 then some inn else none) ∧
    (lastCorrPosition (addPosCorr (some inn) none none none none).1).map Position.supplierINN =
      some (if 10 ≤ inn.length ∧ inn.length ≤ 13 then some inn else none) := by
  intro inn h
  have hbase : posBase 1 1 1 "Item" =
      .ok { quantity := 1, price := 1, tax := 1, text := "Item" } := rfl
  have hpay : posPayTypes 4 1 { quantity := 1, price := 1, tax := 1, text := "Item" } =
      .ok { quantity := 1, price := 1, tax := 1, text := "Item",
            paymentMethodType := some 4, paymentSubjectType := some 1 } := rfl
  by_cases hc : 10 ≤ inn.length ∧ inn.length ≤ 13 <;>
    refine ⟨?_, ?_, ?_, ?_⟩ <;>
      simp [addPosOrder105, addPosCorr, add_position_to_order, add_position_to_correction,
        buildOrderPosition, buildCorrectionPosition, hbase, hpay, ffdLookup,
        posSupplierINN_some inn h, hc,
        stOrder105, req105, stCorr, corrReq, st0,
        lastOrderPosition, orderPositions, lastCorrPosition, corrPositions, List.getLast?]

/-- C10 witness: a 9-character `supplier_inn` is silently dropped — the
call succeeds and no `supplierINN` is stored. -/
theorem c10_witness :
    (addPosOrder105 (some "123456789") none none).2 = none ∧
    (lastOrderPosition (addPosOrder105 (some "123456789") none none).1).map
      Position.supplierINN = some none := by
  have hmain := c10_supplier_inn "123456789" (by decide)
  refine ⟨hmain.1, ?_⟩
  rw [hmain.2.2.1]
  decide

end OrangeData
